import Mathlib

/-!
Shallow embedding of `neo/io/OpenEphysIO.py` (class `Open_Ephys_IO`, method
`read_block`).  The external collaborators (the OpenEphys loader functions
`get_header_from_folder` and `loadFolderToArray`, and the standard-library
`datetime.strptime`) are modelled as an environment of functions; the neo
containers (`Block`, `Segment`, `AnalogSignal`) are modelled as record types
carrying exactly the constructor arguments the adapter passes.  Python
exceptions are modelled with `Except`, printed diagnostics as a list of
strings in the result, and the `create_many_to_one_relationship` call as a
counter on the block.
-/

namespace OpenEphys

/-- A Python error propagating out of the adapter. -/
inductive PyError where
  | indexError
  | valueError (msg : String)
  | loaderError (msg : String)
deriving DecidableEq, Repr

/-- Decidable equality for `Except`, used to evaluate concrete runs. -/
instance {ε α : Type} [DecidableEq ε] [DecidableEq α] : DecidableEq (Except ε α) := fun x y =>
  match x, y with
  | .ok a, .ok b =>
    if h : a = b then isTrue (by rw [h])
    else isFalse (by intro hc; cases hc; exact h rfl)
  | .error a, .error b =>
    if h : a = b then isTrue (by rw [h])
    else isFalse (by intro hc; cases hc; exact h rfl)
  | .ok _, .error _ => isFalse (by intro hc; cases hc)
  | .error _, .ok _ => isFalse (by intro hc; cases hc)

/-- Result of `datetime.strptime`: a naive datetime value. -/
structure PyDateTime where
  year : Nat
  month : Nat
  day : Nat
  hour : Nat
  minute : Nat
  second : Nat
deriving DecidableEq, Repr

/-- The header dictionary returned by `OEIO.get_header_from_folder`, restricted
to the keys the adapter reads. -/
structure Header where
  date_created : String
  format : String
  sampleRate : ℚ
deriving DecidableEq, Repr

/-- Physical unit tags used by the adapter (`pq.microvolt`, `pq.Hz`). -/
inductive UnitTag where
  | microvolt
  | hz
deriving DecidableEq, Repr

/-- A scalar quantity with a unit, modelling `header[\x27sampleRate\x27]*pq.Hz`. -/
structure Quantity where
  val : ℚ
  unit : UnitTag
deriving DecidableEq, Repr

/-- The `dtype` argument passed to `loadFolderToArray` (the adapter always
passes `float`). -/
inductive DType where
  | float
deriving DecidableEq, Repr

/-- A numpy array as returned by `loadFolderToArray`: either one-dimensional or
two-dimensional (a list of rows; numpy guarantees rectangularity, stated as a
hypothesis where needed). -/
inductive NDArray (α : Type) where
  | one : List α → NDArray α
  | two : List (List α) → NDArray α
deriving DecidableEq, Repr

/-- `data.size`: the total number of elements. -/
def NDArray.size {α : Type} : NDArray α → Nat
  | .one l => l.length
  | .two rows => (rows.map List.length).sum

/-- `len(data.shape)`: the number of dimensions. -/
def NDArray.ndim {α : Type} : NDArray α → Nat
  | .one _ => 1
  | .two _ => 2

/-- `data.shape[1]` for a two-dimensional array (the row length). -/
def NDArray.dim2 {α : Type} : NDArray α → Nat
  | .one _ => 0
  | .two rows => (rows.headD []).length

/-- Rectangularity of a numpy 2-D array: every row has the length reported by
`shape[1]`. -/
def NDArray.rect {α : Type} : NDArray α → Prop
  | .one _ => True
  | .two rows => ∀ r ∈ rows, r.length = (rows.headD []).length

/-- Entry `i` of every row, or `none` if some row has no entry `i`. -/
def columnGet {α : Type} (rows : List (List α)) (i : Nat) : Option (List α) :=
  match rows with
  | [] => some []
  | r :: rs =>
    match r.get? i with
    | none => none
    | some x =>
      match columnGet rs i with
      | none => none
      | some col => some (x :: col)

/-- `data[:,i]`: on a 1-D array this raises IndexError (too many indices); on a
2-D array it selects column `i`, raising IndexError when out of bounds. -/
def npColumn {α : Type} (d : NDArray α) (i : Nat) : Except PyError (List α) :=
  match d with
  | .one _ => .error .indexError
  | .two rows =>
    match columnGet rows i with
    | some col => .ok col
    | none => .error .indexError

/-- Python list indexing `l[i]` for a nonnegative index: IndexError when out of
range. -/
def pyListGet {β : Type} (l : List β) (i : Nat) : Except PyError β :=
  match l.get? i with
  | some x => .ok x
  | none => .error .indexError

/-- Whether a string starts with the path separator `/`. -/
def startsWithSep (s : String) : Bool :=
  match s.data with
  | [] => false
  | c :: _ => c = '/'

/-- Whether a string ends with the path separator `/`. -/
def endsWithSep (s : String) : Bool :=
  match s.data.getLast? with
  | none => false
  | some c => c = '/'

/-- `os.path.join(a, b)` for two components (posix semantics). -/
def os_path_join (a b : String) : String :=
  if startsWithSep b then b
  else if a = "" ∨ endsWithSep a then a ++ b
  else a ++ "/" ++ b

/-- An `AnalogSignal` as constructed by the adapter: the constructor arguments
passed at lines 129-136 of the source. -/
structure AnalogSignal (α : Type) where
  signal : List α
  units : UnitTag
  sampling_rate : Quantity
  name : String
  channel_index : Nat
  description : String
  file_origin : String
deriving DecidableEq, Repr

/-- A `Segment` as constructed by the adapter. -/
structure Segment (α : Type) where
  name : String
  description : String
  file_datetime : PyDateTime
  rec_datetime : PyDateTime
  file_origin : String
  analogsignals : List (AnalogSignal α)
deriving DecidableEq, Repr

/-- A `Block` as constructed by the adapter.  `link_calls` counts how many
times `create_many_to_one_relationship` was invoked on this block. -/
structure Block (α : Type) where
  name : String
  description : String
  file_datetime : PyDateTime
  rec_datetime : PyDateTime
  file_origin : String
  segments : List (Segment α)
  link_calls : Nat
deriving DecidableEq, Repr

/-- The host object-model relationship-linking operation, opaque to the
adapter; modelled as bumping the invocation counter. -/
def create_many_to_one_relationship {α : Type} (b : Block α) : Block α :=
  { b with link_calls := b.link_calls + 1 }

/-- The external collaborators consumed by `read_block`: the two loader
operations and `datetime.strptime` (string, format pattern). -/
structure Env (α : Type) where
  get_header_from_folder : String → Nat → Except PyError Header
  loadFolderToArray : String → String → Nat → DType → Except PyError (NDArray α × List String)
  strptime : String → String → Except PyError PyDateTime

/-- The fixed strptime pattern hard-coded in the source:
the text between the escapes is %d-%b-%Y %H%M%S wrapped in single quotes. -/
def timePattern : String := "\x27%d-%b-%Y %H%M%S\x27"

/-- The Python 2 print statement on the empty-data path:
`print "Folder ", self.dirname, "is empty or can\x27t be read"`. -/
def emptyFolderMsg (dirname : String) : String :=
  "Folder " ++ " " ++ dirname ++ " " ++ "is empty or can\x27t be read"

/-- Channel-count determination (lines 121-126): one channel for a 1-D array,
otherwise the second dimension of the shape. -/
def channelCount {α : Type} (data : NDArray α) : Nat :=
  if data.ndim = 1 then 1 else data.dim2

/-- One iteration of the channel loop (lines 129-136): build the
`AnalogSignal` for channel `i`.  Constructor arguments are evaluated in
source order, so `data[:,i]` is evaluated before `filelist[i]`. -/
def mkAnalogSignal {α : Type} (dirname : String) (header : Header)
    (data : NDArray α) (filelist : List String) (i : Nat) :
    Except PyError (AnalogSignal α) :=
  match npColumn data i with
  | .error e => .error e
  | .ok col =>
    match pyListGet filelist i with
    | .error e => .error e
    | .ok fname =>
      .ok { signal := col
            units := UnitTag.microvolt
            sampling_rate := { val := header.sampleRate, unit := UnitTag.hz }
            name := "analog signal " ++ toString i
            channel_index := i
            description := header.format
            file_origin := os_path_join dirname fname }

/-- The `for i in range(n)` loop (lines 128-137), accumulating the signals in
channel order; the first raised exception aborts the read. -/
def signalLoop {α : Type} (dirname : String) (header : Header)
    (data : NDArray α) (filelist : List String) :
    Nat → Nat → Except PyError (List (AnalogSignal α))
  | _, 0 => .ok []
  | i, rem + 1 =>
    match mkAnalogSignal dirname header data filelist i with
    | .error e => .error e
    | .ok a =>
      match signalLoop dirname header data filelist (i + 1) rem with
      | .error e => .error e
      | .ok rest => .ok (a :: rest)

/-- `Open_Ephys_IO.read_block` (lines 91-140).  The result pairs the returned
value (`some` block, or `none` for the bare `return` on the empty-data path)
with the list of printed diagnostic lines; an uncaught Python exception is an
`Except.error`. -/
def read_block {α : Type} (env : Env α) (dirname : String)
    (lazy : Bool) (cascade : Bool) :
    Except PyError (Option (Block α) × List String) :=
  match env.get_header_from_folder dirname 2 with
  | .error e => .error e
  | .ok header =>
    match env.strptime header.date_created timePattern with
    | .error e => .error e
    | .ok bfd =>
      match env.strptime header.date_created timePattern with
      | .error e => .error e
      | .ok brd =>
        match env.strptime header.date_created timePattern with
        | .error e => .error e
        | .ok sfd =>
          match env.strptime header.date_created timePattern with
          | .error e => .error e
          | .ok srd =>
            let block : Block α :=
              { name := header.date_created
                description := header.format
                file_datetime := bfd
                rec_datetime := brd
                file_origin := dirname
                segments := []
                link_calls := 0 }
            let seg : Segment α :=
              { name := header.date_created
                description := header.format
                file_datetime := sfd
                rec_datetime := srd
                file_origin := dirname
                analogsignals := [] }
            if cascade then
              match env.loadFolderToArray dirname "all" 2 DType.float with
              | .error e => .error e
              | .ok (data, filelist) =>
                if data.size = 0 then
                  .ok (none, [emptyFolderMsg dirname])
                else
                  match signalLoop dirname header data filelist 0 (channelCount data) with
                  | .error e => .error e
                  | .ok sigs =>
                    let seg1 := { seg with analogsignals := seg.analogsignals ++ sigs }
                    let block1 := { block with segments := block.segments ++ [seg1] }
                    .ok (some (create_many_to_one_relationship block1), [])
            else
              let block1 := { block with segments := block.segments ++ [seg] }
              .ok (some (create_many_to_one_relationship block1), [])

/-! Concrete data for witnesses: the spec's concrete scenario (header timestamp
`01-Jan-2020 120000` in quotes, format `raw`, sample rate 30000; a 2-channel,
5-sample array with file list `ch1.continuous`, `ch2.continuous`). -/

/-- A concrete header matching the spec's concrete scenario. -/
def sampleHeader : Header :=
  { date_created := "\x2701-Jan-2020 120000\x27", format := "raw", sampleRate := 30000 }

/-- The datetime the sample header's timestamp parses to. -/
def sampleDT : PyDateTime := ⟨2020, 1, 1, 12, 0, 0⟩

/-- A well-behaved environment returning the given array and file list. -/
def okEnv (data : NDArray ℚ) (fl : List String) : Env ℚ :=
  { get_header_from_folder := fun _ _ => .ok sampleHeader
    loadFolderToArray := fun _ _ _ _ => .ok (data, fl)
    strptime := fun _ _ => .ok sampleDT }

/-- A 5-sample, 2-channel sample matrix. -/
def data25 : NDArray ℚ :=
  .two [[1, 2], [3, 4], [5, 6], [7, 8], [9, 10]]

/-- An environment whose header timestamp does not match the fixed pattern:
`strptime` fails on every input. -/
def badParseEnv : Env ℚ :=
  { get_header_from_folder := fun _ _ => .ok sampleHeader
    loadFolderToArray := fun _ _ _ _ => .ok (data25, ["ch1.continuous", "ch2.continuous"])
    strptime := fun _ _ => .error (.valueError "time data does not match format") }

/-- A variant of `okEnv` that behaves differently from it on every recording
selector other than 2. -/
def otherRecEnv (data : NDArray ℚ) (fl : List String) : Env ℚ :=
  { get_header_from_folder := fun d r =>
      if r = 2 then (okEnv data fl).get_header_from_folder d r
      else .error (.loaderError "no such recording")
    loadFolderToArray := fun d ch r dt =>
      if r = 2 then (okEnv data fl).loadFolderToArray d ch r dt
      else .error (.loaderError "no such recording")
    strptime := (okEnv data fl).strptime }

/-- The signal the adapter builds for channel 0 of the concrete scenario. -/
def sampleSignal0 : AnalogSignal ℚ :=
  { signal := [1, 3, 5, 7, 9]
    units := UnitTag.microvolt
    sampling_rate := { val := 30000, unit := UnitTag.hz }
    name := "analog signal 0"
    channel_index := 0
    description := "raw"
    file_origin := "/rec/ch1.continuous" }

/-- The signal the adapter builds for channel 1 of the concrete scenario. -/
def sampleSignal1 : AnalogSignal ℚ :=
  { signal := [2, 4, 6, 8, 10]
    units := UnitTag.microvolt
    sampling_rate := { val := 30000, unit := UnitTag.hz }
    name := "analog signal 1"
    channel_index := 1
    description := "raw"
    file_origin := "/rec/ch2.continuous" }

/-- The segment the adapter builds for the concrete scenario. -/
def sampleSegment : Segment ℚ :=
  { name := "\x2701-Jan-2020 120000\x27"
    description := "raw"
    file_datetime := sampleDT
    rec_datetime := sampleDT
    file_origin := "/rec"
    analogsignals := [sampleSignal0, sampleSignal1] }

/-- The block the adapter returns for the concrete scenario. -/
def sampleBlock : Block ℚ :=
  { name := "\x2701-Jan-2020 120000\x27"
    description := "raw"
    file_datetime := sampleDT
    rec_datetime := sampleDT
    file_origin := "/rec"
    segments := [sampleSegment]
    link_calls := 1 }

/-- The block the adapter returns for the concrete scenario with
`cascade = False`: one segment, no signals. -/
def sampleBlockNoSignals : Block ℚ :=
  { name := "\x2701-Jan-2020 120000\x27"
    description := "raw"
    file_datetime := sampleDT
    rec_datetime := sampleDT
    file_origin := "/rec"
    segments := [{ name := "\x2701-Jan-2020 120000\x27"
                   description := "raw"
                   file_datetime := sampleDT
                   rec_datetime := sampleDT
                   file_origin := "/rec"
                   analogsignals := [] }]
    link_calls := 1 }

/-! Helper lemmas about the channel loop and the unfolding of `read_block`. -/

/-- Inversion for a successful channel loop: it yields exactly `rem` signals,
and the `j`-th one is the signal built for channel `i + j`. -/
lemma signalLoop_ok_inv {α : Type} (dirname : String) (header : Header)
    (data : NDArray α) (filelist : List String) :
    ∀ (rem i : Nat) (sigs : List (AnalogSignal α)),
      signalLoop dirname header data filelist i rem = .ok sigs →
      sigs.length = rem ∧
        ∀ j a, sigs.get? j = some a →
          mkAnalogSignal dirname header data filelist (i + j) = .ok a := by
  intro rem
  induction rem with
  | zero =>
    intro i sigs h
    simp only [signalLoop] at h
    cases h
    simp
  | succ m ih =>
    intro i sigs h
    simp only [signalLoop] at h
    cases hmk : mkAnalogSignal dirname header data filelist i with
    | error e => rw [hmk] at h; cases h
    | ok a =>
      rw [hmk] at h
      cases hrec : signalLoop dirname header data filelist (i + 1) m with
      | error e => rw [hrec] at h; cases h
      | ok rest =>
        rw [hrec] at h
        cases h
        obtain ⟨hlen, hget⟩ := ih (i + 1) rest hrec
        refine ⟨by simp [hlen], ?_⟩
        intro j b hj
        cases j with
        | zero =>
          simp only [List.get?] at hj
          cases hj
          simpa using hmk
        | succ k =>
          simp only [List.get?] at hj
          have := hget k b hj
          have harith : i + (k + 1) = i + 1 + k := by omega
          rw [harith]
          exact this

/-- The channel loop propagates the first failing iteration: if every channel
before `k` builds successfully and channel `k` fails, the loop fails with
channel `k`'s error. -/
lemma signalLoop_first_err {α : Type} (dirname : String) (header : Header)
    (data : NDArray α) (filelist : List String) (k : Nat) (e : PyError)
    (hok : ∀ j, j < k → ∃ a, mkAnalogSignal dirname header data filelist j = .ok a)
    (herr : mkAnalogSignal dirname header data filelist k = .error e) :
    ∀ (rem i : Nat), i ≤ k → k < i + rem →
      signalLoop dirname header data filelist i rem = .error e := by
  intro rem
  induction rem with
  | zero => intro i h1 h2; omega
  | succ m ih =>
    intro i h1 h2
    simp only [signalLoop]
    rcases Nat.eq_or_lt_of_le h1 with heq | hlt
    · rw [heq, herr]
    · obtain ⟨a, ha⟩ := hok i hlt
      rw [ha, ih (i + 1) hlt (by omega)]

/-- Selecting column `i` of a rectangular 2-D array with `i` in bounds
succeeds. -/
lemma npColumn_two_ok {α : Type} (rows : List (List α)) (i : Nat)
    (h : ∀ r ∈ rows, i < r.length) :
    ∃ col, npColumn (NDArray.two rows) i = .ok col := by
  suffices hs : ∃ col, columnGet rows i = some col by
    obtain ⟨col, hcol⟩ := hs
    exact ⟨col, by simp [npColumn, hcol]⟩
  induction rows with
  | nil => exact ⟨[], rfl⟩
  | cons r rs ih =>
    obtain ⟨col, hcol⟩ := ih (fun r hr => h r (List.mem_cons_of_mem _ hr))
    have hr : i < r.length := h r (List.mem_cons_self _ _)
    exact ⟨r.get ⟨i, hr⟩ :: col, by
      simp [columnGet, hcol, List.getElem?_eq_getElem hr]⟩

/-- Building the signal for channel `i` succeeds when `i` is in bounds for
every row and for the file list. -/
lemma mkAnalogSignal_ok {α : Type} (dirname : String) (header : Header)
    (rows : List (List α)) (filelist : List String) (i : Nat)
    (hcols : ∀ r ∈ rows, i < r.length) (hf : i < filelist.length) :
    ∃ a, mkAnalogSignal dirname header (NDArray.two rows) filelist i = .ok a := by
  obtain ⟨col, hcol⟩ := npColumn_two_ok rows i hcols
  have hget : filelist[i]? = some (filelist.get ⟨i, hf⟩) := List.getElem?_eq_getElem hf
  refine ⟨{ signal := col
            units := UnitTag.microvolt
            sampling_rate := { val := header.sampleRate, unit := UnitTag.hz }
            name := "analog signal " ++ toString i
            channel_index := i
            description := header.format
            file_origin := os_path_join dirname (filelist.get ⟨i, hf⟩) }, ?_⟩
  simp [mkAnalogSignal, hcol, pyListGet, hget]

/-- Building the signal for channel `i` raises IndexError when `i` is in
bounds for every row but out of bounds for the file list. -/
lemma mkAnalogSignal_err {α : Type} (dirname : String) (header : Header)
    (rows : List (List α)) (filelist : List String) (i : Nat)
    (hcols : ∀ r ∈ rows, i < r.length) (hf : filelist.length ≤ i) :
    mkAnalogSignal dirname header (NDArray.two rows) filelist i = .error PyError.indexError := by
  obtain ⟨col, hcol⟩ := npColumn_two_ok rows i hcols
  have hget : filelist[i]? = none := by
    simp [List.getElem?_eq_none_iff, hf]
  simp [mkAnalogSignal, hcol, pyListGet, hget]

/-- Unfolding of `read_block` with `cascade = True` once the header request,
the timestamp parse and the array load are known to succeed. -/
lemma read_block_cascade_eq {α : Type} (env : Env α) (dirname : String)
    (lz : Bool) (header : Header) (t : PyDateTime) (data : NDArray α)
    (filelist : List String)
    (hheader : env.get_header_from_folder dirname 2 = .ok header)
    (hstrp : env.strptime header.date_created timePattern = .ok t)
    (hload : env.loadFolderToArray dirname "all" 2 DType.float = .ok (data, filelist)) :
    read_block env dirname lz true =
      if data.size = 0 then .ok (none, [emptyFolderMsg dirname])
      else
        match signalLoop dirname header data filelist 0 (channelCount data) with
        | .error e => .error e
        | .ok sigs =>
          .ok (some
            { name := header.date_created
              description := header.format
              file_datetime := t
              rec_datetime := t
              file_origin := dirname
              segments := [{ name := header.date_created
                             description := header.format
                             file_datetime := t
                             rec_datetime := t
                             file_origin := dirname
                             analogsignals := sigs }]
              link_calls := 1 }, []) := by
  simp only [read_block, hheader, hstrp, hload, create_many_to_one_relationship]
  by_cases hsz : data.size = 0
  · simp [hsz]
  · simp only [hsz, if_false]
    cases hsig : signalLoop dirname header data filelist 0 (channelCount data) with
    | error e => simp
    | ok sigs => simp

/-- Unfolding of `read_block` with `cascade = False` once the header request
and the timestamp parse are known to succeed. -/
lemma read_block_nocascade_eq {α : Type} (env : Env α) (dirname : String)
    (lz : Bool) (header : Header) (t : PyDateTime)
    (hheader : env.get_header_from_folder dirname 2 = .ok header)
    (hstrp : env.strptime header.date_created timePattern = .ok t) :
    read_block env dirname lz false =
      .ok (some
        { name := header.date_created
          description := header.format
          file_datetime := t
          rec_datetime := t
          file_origin := dirname
          segments := [{ name := header.date_created
                         description := header.format
                         file_datetime := t
                         rec_datetime := t
                         file_origin := dirname
                         analogsignals := [] }]
          link_calls := 1 }, []) := by
  simp [read_block, hheader, hstrp, create_many_to_one_relationship]

/-! The claims. -/

/-- C1: the claim says a non-empty 1-D sample array yields a Block with one
AnalogSignal; that is also the code's own stated intent (`just one single
channel`), but the code then evaluates `data[:,i]`, which applies two indices
to the 1-D array and raises IndexError, so no Block is returned.  This
theorem evaluates the code at such a failing input: a non-empty
one-dimensional array of 3 samples with a 1-entry file list. -/
theorem claim_C1_bug_eval :
    read_block (okEnv (NDArray.one [1, 2, 3]) ["ch1.continuous"]) "/rec" false true =
      .error PyError.indexError := by decide

/-- C2: when the loader returns an empty sample array, `read_block` with
`cascade = True` returns no result (`none`, not a Block) and prints exactly
one diagnostic line, which names the configured directory. -/
theorem claim_C2_empty_no_result {α : Type} (env : Env α) (dirname : String) (lz : Bool)
    (header : Header) (t : PyDateTime) (data : NDArray α) (filelist : List String)
    (hheader : env.get_header_from_folder dirname 2 = .ok header)
    (hstrp : env.strptime header.date_created timePattern = .ok t)
    (hload : env.loadFolderToArray dirname "all" 2 DType.float = .ok (data, filelist))
    (hsize : data.size = 0) :
    read_block env dirname lz true =
      .ok (none, ["Folder " ++ " " ++ dirname ++ " " ++ "is empty or can\x27t be read"]) := by
  rw [read_block_cascade_eq env dirname lz header t data filelist hheader hstrp hload]
  simp [hsize, emptyFolderMsg]

/-- Witness for C2 at a concrete empty directory. -/
theorem claim_C2_empty_no_result_witness :
    read_block (okEnv (NDArray.one []) []) "/rec" false true =
      .ok (none, ["Folder " ++ " " ++ "/rec" ++ " " ++ "is empty or can\x27t be read"]) :=
  claim_C2_empty_no_result _ _ false sampleHeader sampleDT _ _ rfl rfl rfl rfl

/-- C3: every invocation of `read_block` that returns a Block invoked
`create_many_to_one_relationship` exactly once on it. -/
theorem claim_C3_link_once {α : Type} (env : Env α) (dirname : String) (lz c : Bool)
    (b : Block α) (out : List String)
    (h : read_block env dirname lz c = .ok (some b, out)) :
    b.link_calls = 1 := by
  simp only [read_block, create_many_to_one_relationship] at h
  repeat' split at h
  all_goals
    try simp only [Except.ok.injEq, Prod.mk.injEq, Option.some.injEq] at h
  all_goals
    first
    | (obtain ⟨hb, hout⟩ := h
       subst hb
       simp)
    | simp at h

/-- Witness for C3 at the concrete scenario. -/
theorem claim_C3_link_once_witness : sampleBlock.link_calls = 1 :=
  claim_C3_link_once (okEnv data25 ["ch1.continuous", "ch2.continuous"]) "/rec" false true
    sampleBlock [] (by decide)

/-- C4: with `cascade = False` the result is a Block with exactly one Segment
holding zero AnalogSignals, and the loader's sample-array operation is never
invoked: the result is unchanged under arbitrary replacement of
`loadFolderToArray`. -/
theorem claim_C4_no_cascade {α : Type} (env env' : Env α) (dirname : String) (lz : Bool)
    (h1 : env'.get_header_from_folder = env.get_header_from_folder)
    (h2 : env'.strptime = env.strptime) :
    read_block env' dirname lz false = read_block env dirname lz false ∧
      ∀ header t,
        env.get_header_from_folder dirname 2 = .ok header →
        env.strptime header.date_created timePattern = .ok t →
        read_block env dirname lz false =
          .ok (some
            { name := header.date_created
              description := header.format
              file_datetime := t
              rec_datetime := t
              file_origin := dirname
              segments := [{ name := header.date_created
                             description := header.format
                             file_datetime := t
                             rec_datetime := t
                             file_origin := dirname
                             analogsignals := [] }]
              link_calls := 1 }, []) := by
  constructor
  · simp [read_block, h1, h2]
  · intro header t hh hs
    exact read_block_nocascade_eq env dirname lz header t hh hs

/-- Witness for C4: two environments with arbitrarily different sample-array
operations give the same `cascade = False` result, which has one segment and
no signals. -/
theorem claim_C4_no_cascade_witness :
    (read_block (okEnv (NDArray.one []) []) "/rec" false false =
        read_block (okEnv data25 ["ch1.continuous", "ch2.continuous"]) "/rec" false false) ∧
      read_block (okEnv data25 ["ch1.continuous", "ch2.continuous"]) "/rec" false false =
        .ok (some sampleBlockNoSignals, []) :=
  ⟨(claim_C4_no_cascade (okEnv data25 ["ch1.continuous", "ch2.continuous"])
      (okEnv (NDArray.one []) []) "/rec" false rfl rfl).1,
   (claim_C4_no_cascade (okEnv data25 ["ch1.continuous", "ch2.continuous"])
      (okEnv (NDArray.one []) []) "/rec" false rfl rfl).2 sampleHeader sampleDT rfl rfl⟩

/-- C5: every returned Block's and its Segments' `file_datetime` and
`rec_datetime` are all equal, and all are the parse of the header's
creation-time string under the fixed pattern (the parse result `t` of
`strptime header.date_created timePattern`). -/
theorem claim_C5_datetimes {α : Type} (env : Env α) (dirname : String) (lz c : Bool)
    (header : Header) (t : PyDateTime) (b : Block α) (out : List String)
    (hheader : env.get_header_from_folder dirname 2 = .ok header)
    (hstrp : env.strptime header.date_created timePattern = .ok t)
    (hread : read_block env dirname lz c = .ok (some b, out)) :
    b.file_datetime = t ∧ b.rec_datetime = t ∧
      ∀ s ∈ b.segments, s.file_datetime = t ∧ s.rec_datetime = t := by
  simp only [read_block, hheader, hstrp, create_many_to_one_relationship] at hread
  repeat' split at hread
  all_goals
    try simp only [Except.ok.injEq, Prod.mk.injEq, Option.some.injEq] at hread
  all_goals
    first
    | (obtain ⟨hb, hout⟩ := hread
       subst hb
       simp)
    | simp at hread

/-- Witness for C5 at the concrete scenario. -/
theorem claim_C5_datetimes_witness :
    sampleBlock.file_datetime = sampleDT ∧ sampleBlock.rec_datetime = sampleDT ∧
      sampleSegment.file_datetime = sampleDT ∧ sampleSegment.rec_datetime = sampleDT := by
  have h := claim_C5_datetimes (okEnv data25 ["ch1.continuous", "ch2.continuous"]) "/rec"
    false true sampleHeader sampleDT sampleBlock [] rfl rfl (by decide)
  exact ⟨h.1, h.2.1, (h.2.2 sampleSegment (by simp [sampleBlock])).1,
    (h.2.2 sampleSegment (by simp [sampleBlock])).2⟩

/-- C6: every AnalogSignal in a returned Block has microvolt units, the
header's sample rate in Hz, a name embedding its channel index, the header
format string as description, and a file origin equal to the directory joined
with the corresponding entry of the loader's file list. -/
theorem claim_C6_signal_fields {α : Type} (env : Env α) (dirname : String) (lz : Bool)
    (header : Header) (t : PyDateTime) (data : NDArray α) (filelist : List String)
    (b : Block α) (out : List String)
    (hheader : env.get_header_from_folder dirname 2 = .ok header)
    (hstrp : env.strptime header.date_created timePattern = .ok t)
    (hload : env.loadFolderToArray dirname "all" 2 DType.float = .ok (data, filelist))
    (hread : read_block env dirname lz true = .ok (some b, out)) :
    ∀ s ∈ b.segments, ∀ j a, s.analogsignals.get? j = some a →
      a.units = UnitTag.microvolt ∧
      a.sampling_rate = { val := header.sampleRate, unit := UnitTag.hz } ∧
      a.name = "analog signal " ++ toString a.channel_index ∧
      a.channel_index = j ∧
      a.description = header.format ∧
      (filelist.get? j).map (os_path_join dirname) = some a.file_origin := by
  rw [read_block_cascade_eq env dirname lz header t data filelist hheader hstrp hload] at hread
  by_cases hsz : data.size = 0
  · rw [if_pos hsz] at hread
    exact absurd hread (by simp)
  · rw [if_neg hsz] at hread
    cases hsig : signalLoop dirname header data filelist 0 (channelCount data) with
    | error e =>
      rw [hsig] at hread
      exact absurd hread (by simp)
    | ok sigs =>
      rw [hsig] at hread
      simp only [Except.ok.injEq, Prod.mk.injEq, Option.some.injEq] at hread
      obtain ⟨hb, hout⟩ := hread
      subst hb
      intro s hs j a hget
      simp only [List.mem_singleton] at hs
      subst hs
      simp only at hget
      obtain ⟨hlen, hmk⟩ := signalLoop_ok_inv dirname header data filelist
        (channelCount data) 0 sigs hsig
      have hmkj := hmk j a hget
      simp only [Nat.zero_add] at hmkj
      cases hcol : npColumn data j with
      | error e =>
        simp only [mkAnalogSignal, hcol] at hmkj
        exact Except.noConfusion hmkj
      | ok col =>
        simp only [mkAnalogSignal, hcol] at hmkj
        cases hpg : pyListGet filelist j with
        | error e => rw [hpg] at hmkj; cases hmkj
        | ok fname =>
          rw [hpg] at hmkj
          simp only [Except.ok.injEq] at hmkj
          subst hmkj
          have hg : filelist.get? j = some fname := by
            simp only [pyListGet] at hpg
            cases hg0 : filelist.get? j with
            | none => rw [hg0] at hpg; cases hpg
            | some x => rw [hg0] at hpg; cases hpg; rfl
          refine ⟨rfl, rfl, rfl, rfl, rfl, ?_⟩
          rw [hg]
          rfl

/-- Witness for C6 at the concrete scenario, channel 1. -/
theorem claim_C6_signal_fields_witness :
    sampleSignal1.units = UnitTag.microvolt ∧
      sampleSignal1.sampling_rate = { val := sampleHeader.sampleRate, unit := UnitTag.hz } ∧
      sampleSignal1.name = "analog signal " ++ toString sampleSignal1.channel_index ∧
      sampleSignal1.channel_index = 1 ∧
      sampleSignal1.description = sampleHeader.format ∧
      ((["ch1.continuous", "ch2.continuous"].get? 1).map (os_path_join "/rec") =
        some sampleSignal1.file_origin) :=
  claim_C6_signal_fields (okEnv data25 ["ch1.continuous", "ch2.continuous"]) "/rec" false
    sampleHeader sampleDT data25 ["ch1.continuous", "ch2.continuous"] sampleBlock []
    rfl rfl rfl (by decide) sampleSegment (by simp [sampleBlock]) 1 sampleSignal1 rfl

/-- C7: both loader operations are consulted only at the hard-coded recording
selector 2: any two environments that agree at selector 2 (and share the same
`strptime`) give identical results, whatever they do at other selectors and
whatever the caller passes. -/
theorem claim_C7_recording_two {α : Type} (env env' : Env α) (dirname : String) (lz c : Bool)
    (h1 : ∀ d, env'.get_header_from_folder d 2 = env.get_header_from_folder d 2)
    (h2 : ∀ d ch dt, env'.loadFolderToArray d ch 2 dt = env.loadFolderToArray d ch 2 dt)
    (h3 : env'.strptime = env.strptime) :
    read_block env' dirname lz c = read_block env dirname lz c := by
  simp only [read_block, h1, h2, h3]

/-- Witness for C7: an environment failing on every selector other than 2
gives the same result as the well-behaved one. -/
theorem claim_C7_recording_two_witness :
    read_block (otherRecEnv data25 ["ch1.continuous", "ch2.continuous"]) "/rec" false true =
      read_block (okEnv data25 ["ch1.continuous", "ch2.continuous"]) "/rec" false true :=
  claim_C7_recording_two (okEnv data25 ["ch1.continuous", "ch2.continuous"])
    (otherRecEnv data25 ["ch1.continuous", "ch2.continuous"]) "/rec" false true
    (fun _ => rfl) (fun _ _ _ => rfl) rfl

/-- C8: the `lazy` flag has no effect: two runs differing only in `lazy`
return identical results, including the printed diagnostics. -/
theorem claim_C8_lazy_no_effect {α : Type} (env : Env α) (dirname : String) (c : Bool) :
    read_block env dirname true c = read_block env dirname false c := rfl

/-- C9: when the header's creation-time string fails to parse under the fixed
pattern, `read_block` propagates the parse failure uncaught and returns no
Block. -/
theorem claim_C9_parse_failure {α : Type} (env : Env α) (dirname : String) (lz c : Bool)
    (header : Header) (e : PyError)
    (hheader : env.get_header_from_folder dirname 2 = .ok header)
    (hstrp : env.strptime header.date_created timePattern = .error e) :
    read_block env dirname lz c = .error e := by
  simp [read_block, hheader, hstrp]

/-- Witness for C9 with a concrete malformed timestamp environment. -/
theorem claim_C9_parse_failure_witness :
    read_block badParseEnv "/rec" false true =
      .error (PyError.valueError "time data does not match format") :=
  claim_C9_parse_failure badParseEnv "/rec" false true sampleHeader _ rfl rfl

/-- C10: with a non-empty two-dimensional matrix of `n` channels and a file
list shorter than `n`, `read_block` fails with IndexError rather than
returning a Block or the no-result outcome. -/
theorem claim_C10_short_filelist {α : Type} (env : Env α) (dirname : String) (lz : Bool)
    (header : Header) (t : PyDateTime) (rows : List (List α)) (filelist : List String)
    (n : Nat)
    (hheader : env.get_header_from_folder dirname 2 = .ok header)
    (hstrp : env.strptime header.date_created timePattern = .ok t)
    (hload : env.loadFolderToArray dirname "all" 2 DType.float =
      .ok (NDArray.two rows, filelist))
    (hrows : rows ≠ [])
    (hn : ∀ r ∈ rows, r.length = n)
    (hshort : filelist.length < n) :
    read_block env dirname lz true = .error PyError.indexError := by
  obtain ⟨r0, rs, rfl⟩ := List.exists_cons_of_ne_nil hrows
  have hr0 : r0.length = n := hn r0 (List.mem_cons_self _ _)
  have hsz : (NDArray.two (r0 :: rs) : NDArray α).size ≠ 0 := by
    simp only [NDArray.size, List.map_cons, List.sum_cons]
    omega
  have hcc : channelCount (NDArray.two (r0 :: rs) : NDArray α) = n := by
    simp [channelCount, NDArray.ndim, NDArray.dim2, hr0]
  have hloop : signalLoop dirname header (NDArray.two (r0 :: rs)) filelist 0 n =
      .error PyError.indexError := by
    apply signalLoop_first_err dirname header _ filelist filelist.length
      PyError.indexError
    · intro j hj
      exact mkAnalogSignal_ok dirname header _ filelist j
        (fun r hr => by rw [hn r hr]; omega) hj
    · exact mkAnalogSignal_err dirname header _ filelist filelist.length
        (fun r hr => by rw [hn r hr]; exact hshort) le_rfl
    · exact Nat.zero_le _
    · omega
  rw [read_block_cascade_eq env dirname lz header t (NDArray.two (r0 :: rs)) filelist
    hheader hstrp hload]
  rw [if_neg hsz, hcc, hloop]

/-- Witness for C10: the concrete 2-channel scenario with a 1-entry file
list. -/
theorem claim_C10_short_filelist_witness :
    read_block (okEnv data25 ["ch1.continuous"]) "/rec" false true =
      .error PyError.indexError :=
  claim_C10_short_filelist (okEnv data25 ["ch1.continuous"]) "/rec" false
    sampleHeader sampleDT [[1, 2], [3, 4], [5, 6], [7, 8], [9, 10]] ["ch1.continuous"] 2
    rfl rfl rfl (by simp) (by decide) (by decide)

end OpenEphys
